import Mathlib

/-
Verification of the dynamic pricing-and-invoicing engine
(backend/app: invoice_generator.py, pricing_engine.py,
advanced_pricing_engine.py, shipping_estimator.py, models/schemas.py).

Conventions of the shallow embedding:
* Python floats are modelled as exact rationals (ℚ); decimal literals of the
  source become the corresponding rationals.
* Python `round(x, n)` (banker's rounding, ties to even) is modelled by
  `round2` / `round1` built on the ties-to-even integer rounding `roundTE`.
* Python `str.upper()` is modelled by `pyUpper` (character-wise
  `Char.toUpper`; country codes are ASCII).
* `np.random.uniform(..)` draws have no counterpart in a pure embedding;
  every such draw becomes an explicit parameter of the embedded function
  (`market_factor`, `competition_factor`, `confidence_draw`), so that the
  embedded function describes exactly the family of values the source can
  return as the draws range over their documented intervals.
* Identifier fields produced from wall-clock time and uuid randomness
  (`invoice_id`, `created_at`) are not modelled: no verified property
  mentions them.
* f-string interpolation of numbers into description texts is not modelled;
  description strings keep their constant part.
-/

/-- Python `str.upper()` (character-wise upper-casing; equal to
`String.toUpper`, stated over the string's character data so that it
computes by structural recursion). -/
def pyUpper (s : String) : String := String.mk (s.data.map Char.toUpper)

/-! ### models/schemas.py -/

inductive CustomerSegment where
  | academic
  | biotech_startup
  | pharma_enterprise
  | research_institute
deriving DecidableEq, Repr

inductive ProductCategory where
  | reagents
  | lab_equipment
  | consumables
  | instruments
  | chemicals
deriving DecidableEq, Repr

structure Customer where
  id : String
  name : String
  segment : CustomerSegment
  location : String
  country : String
  tax_exempt : Bool := false
deriving DecidableEq, Repr

structure Product where
  sku : String
  name : String
  category : ProductCategory
  supplier : String
  weight_kg : Option ℚ := none
  base_price : ℚ
  hs_code : Option String := none
deriving DecidableEq, Repr

structure BasketItem where
  product : Product
  quantity : ℤ
  unit_price : ℚ
deriving DecidableEq, Repr

structure Basket where
  items : List BasketItem
  customer : Customer
  destination_country : String
  destination_zip : String
deriving DecidableEq, Repr

structure InvoiceLineItem where
  sku : String
  description : String
  quantity : ℤ
  unit_price : ℚ
  line_total : ℚ
  tax_rate : ℚ
  tariff_rate : Option ℚ := none
deriving DecidableEq, Repr

structure DynamicField where
  field_name : String
  field_value : ℚ
  description : String
deriving DecidableEq, Repr

/-- `Invoice` without the unmodelled `invoice_id` / `created_at` / `currency`
identification fields (time- and randomness-derived, constant resp.). -/
structure Invoice where
  customer : Customer
  line_items : List InvoiceLineItem
  subtotal : ℚ
  tax_total : ℚ
  shipping_cost : ℚ
  dynamic_fields : List DynamicField
  total : ℚ
deriving DecidableEq, Repr

/-! ### Python `round` (ties to even) on rationals -/

/-- Round a rational to the nearest integer, ties to even
(the behaviour of Python `round`). -/
def roundTE (q : ℚ) : ℤ :=
  if q - ⌊q⌋ < 1/2 then ⌊q⌋
  else if 1/2 < q - ⌊q⌋ then ⌊q⌋ + 1
  else if ⌊q⌋ % 2 = 0 then ⌊q⌋ else ⌊q⌋ + 1

/-- Python `round(q, 2)`. -/
def round2 (q : ℚ) : ℚ := (roundTE (q * 100) : ℚ) / 100

/-- Python `round(q, 1)`. -/
def round1 (q : ℚ) : ℚ := (roundTE (q * 10) : ℚ) / 10

/-! ### services/invoice_generator.py -/

/-- `InvoiceGenerator.tariff_rates` (HS code → rate). -/
def tariff_rates (hs : String) : Option ℚ :=
  if hs = "3822" then some (35/1000)
  else if hs = "9027" then some (25/1000)
  else if hs = "3926" then some (45/1000)
  else if hs = "7020" then some (30/1000)
  else none

/-- `self.tariff_rates.get(item.product.hs_code, 0.05)` of
`InvoiceGenerator.generate`: a missing or unmapped HS code falls back to the
5% default. -/
def tariff_rate_for (hs : Option String) : ℚ :=
  match hs with
  | none => 5/100
  | some h => (tariff_rates h).getD (5/100)

/-- `InvoiceGenerator.service_fees` (all four segments are keys, so the
`.get(…, 0.025)` default of `_generate_dynamic_fields` is unreachable). -/
def service_fees : CustomerSegment → ℚ
  | CustomerSegment.academic => 2/100
  | CustomerSegment.biotech_startup => 25/1000
  | CustomerSegment.pharma_enterprise => 15/1000
  | CustomerSegment.research_institute => 2/100

/-- `InvoiceGenerator._get_tax_rate` (exact, case-sensitive country match). -/
def get_tax_rate (category : ProductCategory) (country : String) : ℚ :=
  if category = ProductCategory.reagents ∧ country = "US" then 0
  else if country = "US" then 875/10000
  else if country = "CA" then 13/100
  else if country = "GB" then 20/100
  else if country = "DE" then 19/100
  else 10/100

/-- `InvoiceGenerator._calculate_shipping`: flat 15.0 plus 2.0 per item
counted with quantity. -/
def calculate_shipping (b : Basket) : ℚ :=
  15 + ((b.items.map (fun item => item.quantity)).sum : ℤ) * 2

/-- `sum(item.unit_price * item.quantity for item in basket.items)`,
the subtotal used by `generate` and by `apply_promotions`. -/
def basket_subtotal (b : Basket) : ℚ :=
  (b.items.map (fun item => item.unit_price * (item.quantity : ℚ))).sum

/-- Σ `base_price * quantity` over the basket
(the "basket item value" of shipping_estimator.py). -/
def basket_value (b : Basket) : ℚ :=
  (b.items.map (fun item => item.product.base_price * (item.quantity : ℚ))).sum

/-- `InvoiceGenerator._generate_dynamic_fields`. -/
def generate_dynamic_fields (b : Basket) (subtotal : ℚ) : List DynamicField :=
  let service_fee_rate := service_fees b.customer.segment
  let service := [DynamicField.mk "service_fee" (subtotal * service_fee_rate) "Service fee"]
  let has_fragile := b.items.any (fun item =>
    item.product.category = ProductCategory.instruments ∨
    item.product.category = ProductCategory.lab_equipment)
  let handling :=
    if has_fragile then
      [DynamicField.mk "handling_charge" 25 "Special handling for fragile equipment"]
    else []
  let international :=
    if pyUpper b.customer.country ≠ pyUpper b.destination_country then
      [DynamicField.mk "international_processing" 35 "International processing and documentation"]
    else []
  let rush := [DynamicField.mk "rush_processing" 0 "Rush processing (if applicable)"]
  service ++ handling ++ international ++ rush

/-- `InvoiceGenerator._apply_promotions`: the automatic discounts applied
while generating an invoice (10% academic above 100, plus 5% volume above
1000, additively). -/
def apply_promotions_auto (b : Basket) (subtotal : ℚ) : ℚ :=
  (if b.customer.segment = CustomerSegment.academic ∧ 100 ≤ subtotal
    then subtotal * (10/100) else 0)
  + (if 1000 ≤ subtotal then subtotal * (5/100) else 0)

/-- The line item built by the loop of `InvoiceGenerator.generate`. -/
def make_line_item (b : Basket) (item : BasketItem) : InvoiceLineItem :=
  { sku := item.product.sku
    description := item.product.name
    quantity := item.quantity
    unit_price := item.unit_price
    line_total := item.unit_price * (item.quantity : ℚ)
    tax_rate := get_tax_rate item.product.category b.destination_country
    tariff_rate :=
      if pyUpper b.customer.country ≠ pyUpper b.destination_country
      then some (tariff_rate_for item.product.hs_code)
      else none }

/-- `InvoiceGenerator.generate`. -/
def generate (b : Basket) (include_promotions : Bool := true) : Invoice :=
  let line_items := b.items.map (make_line_item b)
  let subtotal := basket_subtotal b
  let tax_total := (line_items.map (fun item => item.line_total * item.tax_rate)).sum
  let shipping_cost := calculate_shipping b
  let base_fields := generate_dynamic_fields b subtotal
  let dynamic_fields :=
    if include_promotions then
      let promotion_discount := apply_promotions_auto b subtotal
      if 0 < promotion_discount then
        base_fields ++
          [DynamicField.mk "promotion_discount" (-promotion_discount)
            "Promotional discount applied"]
      else base_fields
    else base_fields
  let dynamic_total := (dynamic_fields.map (fun f => f.field_value)).sum
  { customer := b.customer
    line_items := line_items
    subtotal := subtotal
    tax_total := tax_total
    shipping_cost := shipping_cost
    dynamic_fields := dynamic_fields
    total := subtotal + tax_total + shipping_cost + dynamic_total }

/-- Result of `InvoiceGenerator.calculate_tariffs`; `items` keeps
(sku, hs_code, value, tariff_rate, rounded tariff_amount) per basket item. -/
structure TariffResult where
  total_tariffs : ℚ
  origin_country : String
  destination_country : String
  items : List (String × String × ℚ × ℚ × ℚ)
  notes : String
deriving DecidableEq, Repr

/-- `hs_code = item.product.hs_code or "0000"` (Python `or`: `None` and the
empty string are falsy). -/
def hs_code_or_default (hs : Option String) : String :=
  match hs with
  | none => "0000"
  | some s => if s = "" then "0000" else s

/-- `InvoiceGenerator.calculate_tariffs`. -/
def calculate_tariffs (b : Basket) (origin_country : String := "US") : TariffResult :=
  if pyUpper b.destination_country = pyUpper origin_country then
    { total_tariffs := 0
      origin_country := origin_country
      destination_country := b.destination_country
      items := []
      notes := "Domestic shipment - no tariffs" }
  else
    let tariff_items := b.items.map (fun item =>
      let hs := hs_code_or_default item.product.hs_code
      let rate := (tariff_rates hs).getD (5/100)
      let item_value := item.unit_price * (item.quantity : ℚ)
      (item.product.sku, hs, item_value, rate, round2 (item_value * rate)))
    let total := (b.items.map (fun item =>
      let hs := hs_code_or_default item.product.hs_code
      let rate := (tariff_rates hs).getD (5/100)
      item.unit_price * (item.quantity : ℚ) * rate)).sum
    { total_tariffs := round2 total
      origin_country := origin_country
      destination_country := b.destination_country
      items := tariff_items
      notes := "Tariff rates are estimates and subject to customs verification" }

/-- Result of the stand-alone promotions preview
`InvoiceGenerator.apply_promotions`; `applied_promotions` keeps
(code, rounded discount_amount). -/
structure PromoPreview where
  applied_promotions : List (String × ℚ)
  total_discount : ℚ
  final_subtotal : ℚ
deriving DecidableEq, Repr

/-- `InvoiceGenerator.apply_promotions` (the promotions-preview operation;
the optional `promotion_codes` argument is unused by the source body). -/
def apply_promotions (b : Basket) : PromoPreview :=
  let subtotal := basket_subtotal b
  let academic_eligible :=
    b.customer.segment = CustomerSegment.academic ∧ 100 ≤ subtotal
  let academic_discount := if academic_eligible then subtotal * (10/100) else 0
  let bulk_discount := if 1000 ≤ subtotal then subtotal * (20/100) else 0
  let applied :=
    (if academic_eligible then [("ACADEMIC10", round2 academic_discount)] else [])
    ++ (if 1000 ≤ subtotal then [("BULK20", round2 bulk_discount)] else [])
  { applied_promotions := applied
    total_discount := round2 (academic_discount + bulk_discount)
    final_subtotal := round2 (subtotal - (academic_discount + bulk_discount)) }

/-- Sum of the `promotion_discount` dynamic fields of an invoice
(the aggregate promotion adjustment `generate` emitted). -/
def promo_field_sum (inv : Invoice) : ℚ :=
  ((inv.dynamic_fields.filter (fun f => f.field_name = "promotion_discount")).map
    (fun f => f.field_value)).sum

/-! ### services/shipping_estimator.py -/

/-- `ShippingEstimator.zone_rates` base cost (only the domestic and
international tables are auto-selected by `estimate_cost`; the "express"
table is never chosen there). -/
def zone_base (is_international : Bool) : ℚ :=
  if is_international then 25 else 85/10

/-- `ShippingEstimator.zone_rates` per-kg cost. -/
def zone_per_kg (is_international : Bool) : ℚ :=
  if is_international then 45/10 else 22/10

/-- `ShippingEstimator.category_weights` (every category is a key, so the
`.get(…, 1.0)` default of `estimate_cost` is unreachable). -/
def category_weights : ProductCategory → ℚ
  | ProductCategory.reagents => 5/10
  | ProductCategory.consumables => 2/10
  | ProductCategory.chemicals => 12/10
  | ProductCategory.lab_equipment => 5
  | ProductCategory.instruments => 15

/-- Weight contribution of one basket item in `estimate_cost`.
Python tests `if item.product.weight_kg:` — truthiness, so a declared
weight of 0.0 (like a missing one) falls back to the category weight. -/
def item_weight (item : BasketItem) : ℚ :=
  match item.product.weight_kg with
  | some w => if w ≠ 0 then w * (item.quantity : ℚ)
              else category_weights item.product.category * (item.quantity : ℚ)
  | none => category_weights item.product.category * (item.quantity : ℚ)

/-- Total estimated basket weight of `estimate_cost`. -/
def total_weight (b : Basket) : ℚ := (b.items.map item_weight).sum

/-- Breakdown dict of `ShippingEstimator.estimate_cost` (each component
rounded to 2 decimals, as in the source). -/
structure ShippingBreakdown where
  base_shipping : ℚ
  weight_charges : ℚ
  handling_fee : ℚ
  fuel_surcharge : ℚ
  insurance : ℚ
  customs_fee : ℚ
  tariff_estimate : ℚ
deriving DecidableEq, Repr

/-- `ShippingEstimate` (carrier options are the fixed multiples
1, 1.8, 0.95 of `total_cost` and are reconstructible from it; they carry no
verified property of their own and are not materialised here). -/
structure ShippingEstimateR where
  total_cost : ℚ
  breakdown : ShippingBreakdown
  estimated_weight : ℚ
deriving DecidableEq, Repr

/-- `ShippingEstimator.estimate_cost`. -/
def estimate_cost (b : Basket) : ShippingEstimateR :=
  let w := total_weight b
  let is_international := pyUpper b.destination_country ≠ pyUpper b.customer.country
  let base_cost := zone_base is_international
  let weight_cost := w * zone_per_kg is_international
  let handling_fee : ℚ := if 10 < w then 5 else 5/2
  let fuel_surcharge := (base_cost + weight_cost) * (8/100)
  let insurance := basket_value b * (1/100)
  let customs_fee : ℚ := if is_international then 15 else 0
  let tariff_estimate : ℚ := if is_international then basket_value b * (5/100) else 0
  let total_cost := base_cost + weight_cost + handling_fee + fuel_surcharge
    + insurance + customs_fee + tariff_estimate
  { total_cost := round2 total_cost
    breakdown :=
      { base_shipping := round2 base_cost
        weight_charges := round2 weight_cost
        handling_fee := round2 handling_fee
        fuel_surcharge := round2 fuel_surcharge
        insurance := round2 insurance
        customs_fee := round2 customs_fee
        tariff_estimate := round2 tariff_estimate }
    estimated_weight := round2 w }

/-! ### services/pricing_engine.py -/

/-- `segment_multipliers` of `PricingEngine._basic_price_optimization`
(string keys: the public `optimize_price` takes the segment as a string). -/
def segment_multiplier (customer_segment : String) : ℚ :=
  if customer_segment = "academic" then 85/100
  else if customer_segment = "enterprise" then 115/100
  else if customer_segment = "government" then 9/10
  else if customer_segment = "startup" then 95/100
  else if customer_segment = "pharmaceutical" then 12/10
  else 1

/-- `volume_multipliers` lookup of `_basic_price_optimization`: the source
walks the thresholds 25, 10, 5, 2, 1 downward and takes the first one not
exceeding the quantity (default 1.0). -/
def volume_multiplier (quantity : ℤ) : ℚ :=
  if 25 ≤ quantity then 88/100
  else if 10 ≤ quantity then 92/100
  else if 5 ≤ quantity then 95/100
  else if 2 ≤ quantity then 98/100
  else if 1 ≤ quantity then 1
  else 1

/-- Numeric outputs of `PricingEngine._basic_price_optimization`
(`recommendation` is free text over the same numbers and is not
materialised). -/
structure BasicOptResult where
  optimized_price : ℚ
  expected_margin : ℚ
  price_elasticity : ℚ
  confidence : ℚ
deriving DecidableEq, Repr

/-- `PricingEngine._basic_price_optimization`.  The three
`np.random.uniform` draws of the source are explicit parameters:
`market_factor` ∈ [0.95, 1.05], `competition_factor` ∈ [0.98, 1.02] and
`confidence_draw` ∈ [0, 15]. -/
def basic_price_optimization (product_id customer_segment : String)
    (quantity : ℤ) (current_price : ℚ)
    (market_factor competition_factor confidence_draw : ℚ) : BasicOptResult :=
  let _ := product_id
  let segment_mult := segment_multiplier customer_segment
  let volume_mult := volume_multiplier quantity
  let base_optimization := current_price * segment_mult * volume_mult
  let optimized_price := base_optimization * market_factor * competition_factor
  let price_change_pct := ((optimized_price - current_price) / current_price) * 100
  let expected_margin := 25 + price_change_pct * (1/2)
  let price_elasticity := |price_change_pct| / 10
  { optimized_price := round2 optimized_price
    expected_margin := round1 expected_margin
    price_elasticity := round2 price_elasticity
    confidence := round1 (85 + confidence_draw) }

/-! ### services/advanced_pricing_engine.py -/

/-- `AdvancedPricingEngine._base_pricing_optimization` (deterministic,
no random factors; same multiplier tables as the basic engine). -/
structure BaseOptResult where
  optimized_price : ℚ
  expected_margin : ℚ
  cost_estimate : ℚ
deriving DecidableEq, Repr

/-- `AdvancedPricingEngine._base_pricing_optimization`. -/
def base_pricing_optimization (product_sku customer_segment : String)
    (quantity : ℤ) (current_price : ℚ) : BaseOptResult :=
  let _ := product_sku
  let segment_mult := segment_multiplier customer_segment
  let volume_mult := volume_multiplier quantity
  let optimized_price := current_price * segment_mult * volume_mult
  { optimized_price := optimized_price
    expected_margin := 25 + ((optimized_price - current_price) / current_price) * 50
    cost_estimate := current_price * (7/10) }

/-! ### Baskets and products used as concrete inputs -/

/-- A domestic academic customer. -/
def acadCustomer : Customer :=
  { id := "C-001", name := "MIT Lab", segment := CustomerSegment.academic
    location := "Cambridge", country := "US" }

/-- A domestic biotech-startup customer (not academic-discount eligible). -/
def startupCustomer : Customer :=
  { id := "C-002", name := "Helix Bio", segment := CustomerSegment.biotech_startup
    location := "Boston", country := "US" }

/-- A reagent product, HS code 3822, declared weight. -/
def reagentProduct : Product :=
  { sku := "RGT-100", name := "Buffer kit", category := ProductCategory.reagents
    supplier := "LabCo", weight_kg := some 1, base_price := 100
    hs_code := some "3822" }

/-- The §8 scenario basket: academic customer, one reagent line,
quantity 3 at unit price 100 (subtotal 300), shipped domestically. -/
def scenarioBasket : Basket :=
  { items := [{ product := reagentProduct, quantity := 3, unit_price := 100 }]
    customer := acadCustomer
    destination_country := "US"
    destination_zip := "02139" }

/-- A basket whose subtotal 1000 triggers the bulk promotion rules. -/
def bulkBasket : Basket :=
  { items := [{ product := reagentProduct, quantity := 1, unit_price := 1000 }]
    customer := startupCustomer
    destination_country := "US"
    destination_zip := "02139" }

/-- A malformed basket: empty item list. -/
def emptyBasket : Basket :=
  { items := []
    customer := acadCustomer
    destination_country := "US"
    destination_zip := "02139" }

/-- A malformed basket: an item with non-positive quantity. -/
def negQuantityBasket : Basket :=
  { items := [{ product := reagentProduct, quantity := -3, unit_price := 100 }]
    customer := startupCustomer
    destination_country := "US"
    destination_zip := "02139" }

/-- A basket whose destination string differs from the customer country
only in letter case ("us" vs "US"). -/
def caseBasket : Basket :=
  { items := [{ product := reagentProduct, quantity := 1, unit_price := 100 }]
    customer := startupCustomer
    destination_country := "us"
    destination_zip := "02139" }

/-- A product stripped of its HS code (`hs_code := None`). -/
def erase_hs_product (p : Product) : Product := {p with hs_code := none}

/-- A basket with every product's HS code stripped: two baskets with equal
erasure differ only in their products' hs_code values. -/
def erase_hs_basket (b : Basket) : Basket :=
  {b with items := b.items.map (fun item => {item with product := erase_hs_product item.product})}

/-- The reagent product without an HS code. -/
def reagentNoHs : Product := { reagentProduct with hs_code := none }

/-- An international basket whose product carries HS code 3822. -/
def hsBasketA : Basket :=
  { items := [{ product := reagentProduct, quantity := 2, unit_price := 50 }]
    customer := acadCustomer
    destination_country := "DE"
    destination_zip := "10115" }

/-- The same international basket with the HS code removed. -/
def hsBasketB : Basket :=
  { items := [{ product := reagentNoHs, quantity := 2, unit_price := 50 }]
    customer := acadCustomer
    destination_country := "DE"
    destination_zip := "10115" }

/-! ### Rounding lemmas -/

theorem le_roundTE (q : ℚ) : ⌊q⌋ ≤ roundTE q := by
  unfold roundTE
  split_ifs <;> omega

theorem roundTE_le (q : ℚ) : roundTE q ≤ ⌊q⌋ + 1 := by
  unfold roundTE
  split_ifs <;> omega

theorem roundTE_mono {x y : ℚ} (h : x ≤ y) : roundTE x ≤ roundTE y := by
  have hf : ⌊x⌋ ≤ ⌊y⌋ := Int.floor_le_floor h
  rcases eq_or_lt_of_le hf with heq | hlt
  · unfold roundTE
    rw [← heq]
    have hr : x - (⌊x⌋ : ℚ) ≤ y - (⌊x⌋ : ℚ) := by linarith
    split_ifs <;> first | omega | linarith
  · calc roundTE x ≤ ⌊x⌋ + 1 := roundTE_le x
      _ ≤ ⌊y⌋ := by omega
      _ ≤ roundTE y := le_roundTE y

theorem round2_mono {x y : ℚ} (h : x ≤ y) : round2 x ≤ round2 y := by
  unfold round2
  have := roundTE_mono (show x * 100 ≤ y * 100 by linarith)
  have hc : ((roundTE (x * 100) : ℤ) : ℚ) ≤ ((roundTE (y * 100) : ℤ) : ℚ) :=
    Int.cast_le.mpr this
  linarith

theorem round2_pos_of_ge {x : ℚ} (h : 1/100 ≤ x) : 0 < round2 x := by
  unfold round2
  have h1 : (1 : ℤ) ≤ ⌊x * 100⌋ := by
    rw [Int.le_floor]
    push_cast
    linarith
  have h2 := le_roundTE (x * 100)
  have hc : (1 : ℚ) ≤ ((roundTE (x * 100) : ℤ) : ℚ) := by
    have : (1 : ℤ) ≤ roundTE (x * 100) := le_trans h1 h2
    exact_mod_cast this
  linarith

/-! ### C1 -/

/-- C1: for every basket and every include_promotions flag, the invoice
returned by `InvoiceGenerator.generate` satisfies
total = subtotal + tax_total + shipping_cost + Σ dynamic_fields.field_value
exactly, with subtotal = Σ line_total over its line items and
tax_total = Σ line_total · tax_rate over its line items. -/
theorem C1_total_reconciliation (b : Basket) (include_promotions : Bool) :
    (generate b include_promotions).total
      = (generate b include_promotions).subtotal
        + (generate b include_promotions).tax_total
        + (generate b include_promotions).shipping_cost
        + ((generate b include_promotions).dynamic_fields.map
            (fun f => f.field_value)).sum
    ∧ (generate b include_promotions).subtotal
      = ((generate b include_promotions).line_items.map
          (fun item => item.line_total)).sum
    ∧ (generate b include_promotions).tax_total
      = ((generate b include_promotions).line_items.map
          (fun item => item.line_total * item.tax_rate)).sum := by
  refine ⟨rfl, ?_, rfl⟩
  have hfun : ∀ item : BasketItem,
      item.unit_price * (item.quantity : ℚ) = (make_line_item b item).line_total :=
    fun item => rfl
  simp only [generate, basket_subtotal, List.map_map, Function.comp]
  exact congrArg List.sum (List.map_congr_left (fun item _ => hfun item))

/-! ### C2 -/

/-- The two random factors of `_basic_price_optimization` enter every
numeric output only through their product. -/
theorem basic_price_optimization_factor_product (product_id customer_segment : String)
    (quantity : ℤ) (current_price market_factor competition_factor confidence_draw : ℚ) :
    basic_price_optimization product_id customer_segment quantity current_price
        market_factor competition_factor confidence_draw
      = basic_price_optimization product_id customer_segment quantity current_price
        (market_factor * competition_factor) 1 confidence_draw := by
  have h : current_price * segment_multiplier customer_segment * volume_multiplier quantity
        * market_factor * competition_factor
      = current_price * segment_multiplier customer_segment * volume_multiplier quantity
        * (market_factor * competition_factor) * 1 := by ring
  simp only [basic_price_optimization, h]

/-- C2 (amended): `optimize_price` on the basic/fallback path is
deterministic in its inputs together with the sampled market and
competition factors, which enter only through their product: whenever the
products of the two sampled factors coincide, the returned
optimized_price, expected_margin and price_elasticity coincide
(independently of the confidence draw).  As literally stated — determinism
in the business inputs alone — the claim fails, see `C2_counterexample`. -/
theorem C2_determinism_given_draws (product_id customer_segment : String)
    (quantity : ℤ) (current_price m₁ f₁ c₁ m₂ f₂ c₂ : ℚ)
    (h : m₁ * f₁ = m₂ * f₂) :
    (basic_price_optimization product_id customer_segment quantity current_price
        m₁ f₁ c₁).optimized_price
      = (basic_price_optimization product_id customer_segment quantity current_price
          m₂ f₂ c₂).optimized_price
    ∧ (basic_price_optimization product_id customer_segment quantity current_price
        m₁ f₁ c₁).expected_margin
      = (basic_price_optimization product_id customer_segment quantity current_price
          m₂ f₂ c₂).expected_margin
    ∧ (basic_price_optimization product_id customer_segment quantity current_price
        m₁ f₁ c₁).price_elasticity
      = (basic_price_optimization product_id customer_segment quantity current_price
          m₂ f₂ c₂).price_elasticity := by
  rw [basic_price_optimization_factor_product product_id customer_segment quantity
      current_price m₁ f₁ c₁,
    basic_price_optimization_factor_product product_id customer_segment quantity
      current_price m₂ f₂ c₂, h]
  refine ⟨?_, ?_, ?_⟩ <;> simp [basic_price_optimization]

/-- C2 witness: concrete draws (1, 21/20) and (21/20, 1) have equal product,
so the three numeric outputs agree. -/
theorem C2_witness :
    (1 : ℚ) * (21/20) = (21/20) * 1
    ∧ ((basic_price_optimization "SKU-1" "academic" 1 100 1 (21/20) 0).optimized_price
        = (basic_price_optimization "SKU-1" "academic" 1 100 (21/20) 1 5).optimized_price
      ∧ (basic_price_optimization "SKU-1" "academic" 1 100 1 (21/20) 0).expected_margin
        = (basic_price_optimization "SKU-1" "academic" 1 100 (21/20) 1 5).expected_margin
      ∧ (basic_price_optimization "SKU-1" "academic" 1 100 1 (21/20) 0).price_elasticity
        = (basic_price_optimization "SKU-1" "academic" 1 100 (21/20) 1 5).price_elasticity) :=
  ⟨by norm_num,
    C2_determinism_given_draws "SKU-1" "academic" 1 100 1 (21/20) 0 (21/20) 1 5
      (by norm_num)⟩

/-- C2 counterexample: with the market factor drawn at 1 in one call and at
21/20 = 1.05 in the other (both inside the documented ranges
[0.95, 1.05] × [0.98, 1.02] of `np.random.uniform`), two calls of
`_basic_price_optimization` with identical business inputs return
different optimized prices (85 vs 89.25): the computation is not
deterministic in its inputs alone. -/
theorem C2_counterexample :
    (basic_price_optimization "SKU-1" "academic" 1 100 1 1 0).optimized_price = 85
    ∧ (basic_price_optimization "SKU-1" "academic" 1 100 (21/20) 1 0).optimized_price
        = 357/4
    ∧ ((85 : ℚ) ≠ 357/4)
    ∧ ((19/20 : ℚ) ≤ 1 ∧ (1 : ℚ) ≤ 21/20)
    ∧ ((19/20 : ℚ) ≤ 21/20 ∧ (21/20 : ℚ) ≤ 21/20)
    ∧ ((49/50 : ℚ) ≤ 1 ∧ (1 : ℚ) ≤ 51/50) := by
  norm_num [basic_price_optimization, segment_multiplier, volume_multiplier,
    round2, roundTE, Int.floor_eq_iff]

/-! ### C5 -/

theorem volume_multiplier_antitone {q₁ q₂ : ℤ} (h : q₁ ≤ q₂) :
    volume_multiplier q₂ ≤ volume_multiplier q₁ := by
  unfold volume_multiplier
  split_ifs <;> first | omega | norm_num

theorem volume_multiplier_nonneg (q : ℤ) : 0 ≤ volume_multiplier q := by
  unfold volume_multiplier
  split_ifs <;> norm_num

theorem segment_multiplier_nonneg (s : String) : 0 ≤ segment_multiplier s := by
  unfold segment_multiplier
  split_ifs <;> norm_num

/-- C5 (amended): for fixed segment, non-negative current price and fixed
non-negative market/competition draws, the optimized_price returned by the
basic optimization is non-increasing in quantity (the volume multiplier is
selected by the largest threshold 1, 2, 5, 10, 25 not exceeding the
quantity and decreases across thresholds).  As literally stated the claim
fails because each call multiplies by fresh random draws, see
`C5_counterexample`. -/
theorem C5_volume_monotonic (product_id customer_segment : String) (q₁ q₂ : ℤ)
    (current_price market_factor competition_factor confidence_draw : ℚ)
    (hq : q₁ ≤ q₂) (hp : 0 ≤ current_price) (hm : 0 ≤ market_factor)
    (hf : 0 ≤ competition_factor) :
    (basic_price_optimization product_id customer_segment q₂ current_price
        market_factor competition_factor confidence_draw).optimized_price
      ≤ (basic_price_optimization product_id customer_segment q₁ current_price
          market_factor competition_factor confidence_draw).optimized_price := by
  simp only [basic_price_optimization]
  apply round2_mono
  have hv := volume_multiplier_antitone hq
  have hrest : 0 ≤ current_price * segment_multiplier customer_segment
      * market_factor * competition_factor :=
    mul_nonneg (mul_nonneg (mul_nonneg hp (segment_multiplier_nonneg customer_segment)) hm) hf
  calc current_price * segment_multiplier customer_segment * volume_multiplier q₂
        * market_factor * competition_factor
      = volume_multiplier q₂ * (current_price * segment_multiplier customer_segment
          * market_factor * competition_factor) := by ring
    _ ≤ volume_multiplier q₁ * (current_price * segment_multiplier customer_segment
          * market_factor * competition_factor) :=
        mul_le_mul_of_nonneg_right hv hrest
    _ = current_price * segment_multiplier customer_segment * volume_multiplier q₁
          * market_factor * competition_factor := by ring

/-- C5 witness: quantity 1 vs 5 at price 100, neutral draws: crossing the
threshold 5 does not increase the optimized price. -/
theorem C5_witness :
    (1 : ℤ) ≤ 5 ∧ (0 : ℚ) ≤ 100 ∧ (0 : ℚ) ≤ 1 ∧
    (basic_price_optimization "SKU-1" "academic" 5 100 1 1 0).optimized_price
      ≤ (basic_price_optimization "SKU-1" "academic" 1 100 1 1 0).optimized_price :=
  ⟨by norm_num, by norm_num, by norm_num,
    C5_volume_monotonic "SKU-1" "academic" 1 5 100 1 1 0 (by norm_num) (by norm_num)
      (by norm_num) (by norm_num)⟩

/-- C5 counterexample: with fresh admissible draws per call — 0.95, 0.98 at
quantity 1 and 1.05, 1.02 at quantity 2 — the price returned for the larger
quantity (89.21) exceeds the one for the smaller quantity (79.14): the
claim fails as literally stated over the randomized basic path. -/
theorem C5_counterexample :
    (basic_price_optimization "SKU-1" "academic" 1 100 (19/20) (49/50) 0).optimized_price
        = 7914/100
    ∧ (basic_price_optimization "SKU-1" "academic" 2 100 (21/20) (51/50) 0).optimized_price
        = 8921/100
    ∧ ((7914/100 : ℚ) < 8921/100)
    ∧ ((19/20 : ℚ) ≤ 19/20 ∧ (21/20 : ℚ) ≤ 21/20)
    ∧ ((49/50 : ℚ) ≤ 49/50 ∧ (51/50 : ℚ) ≤ 51/50) := by
  norm_num [basic_price_optimization, segment_multiplier, volume_multiplier,
    round2, roundTE, Int.floor_eq_iff]

/-! ### C3 -/

/-- C3: the code performs no input validation.  `BasketItem.quantity` is an
unconstrained int in the schema and `InvoiceGenerator.generate` checks
nothing: an empty basket yields a normal invoice (subtotal 0, flat
shipping 15, total 15) and a non-positive quantity yields a normal invoice
with a negative subtotal (-300) and total (-298.50) — no distinct, named
validation failure is raised, contradicting the spec's invalid-input
error class. -/
theorem C3_no_validation :
    (generate emptyBasket true).subtotal = 0
    ∧ (generate emptyBasket true).line_items = []
    ∧ (generate emptyBasket true).total = 15
    ∧ (generate negQuantityBasket true).subtotal = -300
    ∧ (generate negQuantityBasket true).total = -597/2 := by
  norm_num +decide [generate, emptyBasket, negQuantityBasket, acadCustomer,
    startupCustomer, reagentProduct, basket_subtotal, generate_dynamic_fields,
    apply_promotions_auto, service_fees, make_line_item, calculate_shipping,
    get_tax_rate, List.filter]

/-! ### C4 -/

theorem apply_promotions_auto_nonneg (b : Basket) (subtotal : ℚ) :
    0 ≤ apply_promotions_auto b subtotal := by
  unfold apply_promotions_auto
  have t1 : 0 ≤ (if b.customer.segment = CustomerSegment.academic ∧ 100 ≤ subtotal
      then subtotal * (10/100) else 0) := by
    split_ifs with h
    · nlinarith [h.2]
    · exact le_refl 0
  have t2 : 0 ≤ (if 1000 ≤ subtotal then subtotal * (5/100) else 0) := by
    split_ifs with h
    · nlinarith
    · exact le_refl 0
  exact add_nonneg t1 t2

/-- None of the base dynamic fields carries the name promotion_discount. -/
theorem promo_name_not_in_base (b : Basket) (st : ℚ) (f : DynamicField)
    (hf : f ∈ generate_dynamic_fields b st) : ¬ f.field_name = "promotion_discount" := by
  unfold generate_dynamic_fields at hf
  simp only [List.mem_append, List.mem_singleton] at hf
  rcases hf with ((h | h) | h) | h
  · subst h; simp
  · revert h; split_ifs <;> intro h <;> simp_all +decide
  · revert h; split_ifs <;> intro h <;> simp_all +decide
  · subst h; simp

/-- Filtering the base dynamic fields for promotion_discount yields nothing. -/
theorem promo_filter_base (b : Basket) (st : ℚ) :
    (generate_dynamic_fields b st).filter
      (fun f => f.field_name = "promotion_discount") = [] := by
  rw [List.filter_eq_nil_iff]
  intro f hf
  simpa using promo_name_not_in_base b st f hf

/-- The aggregate promotion adjustment on a generated invoice is exactly
minus the `_apply_promotions` discount. -/
theorem promo_field_sum_generate (b : Basket) :
    promo_field_sum (generate b true) = -(apply_promotions_auto b (basket_subtotal b)) := by
  have hnn := apply_promotions_auto_nonneg b (basket_subtotal b)
  have hbase := promo_filter_base b (basket_subtotal b)
  unfold promo_field_sum generate
  dsimp only
  simp only [eq_self_iff_true, if_true]
  by_cases hpos : 0 < apply_promotions_auto b (basket_subtotal b)
  · rw [if_pos hpos, List.filter_append, hbase]
    simp +decide [List.filter]
  · have hz : apply_promotions_auto b (basket_subtotal b) = 0 :=
      le_antisymm (not_lt.mp hpos) hnn
    rw [if_neg hpos, hbase]
    simp [hz]

/-- C4 counterexample: on a basket with subtotal 1000 the stand-alone
preview applies BULK20 (20%, discount 200) while invoice generation applies
the 5% volume rule (discount 50): the two operations disagree. -/
theorem C4_counterexample :
    (apply_promotions bulkBasket).total_discount = 200
    ∧ promo_field_sum (generate bulkBasket true) = -50
    ∧ ((200 : ℚ) ≠ -(-50 : ℚ)) := by
  norm_num +decide [apply_promotions, bulkBasket, startupCustomer, reagentProduct,
    basket_subtotal, generate, generate_dynamic_fields, apply_promotions_auto,
    service_fees, promo_field_sum, make_line_item, calculate_shipping,
    List.filter, round2, roundTE, Int.floor_eq_iff]

/-- C4 (amended): below the 1000 bulk threshold the preview total_discount
equals the 2-decimal rounding of the aggregate discount that `generate`
emits as the single negative promotion_discount dynamic field (both apply
exactly the 10%-above-100 academic rule); at or above the threshold the two
operations disagree — preview 20% vs invoice 5%, see `C4_counterexample`. -/
theorem C4_preview_matches_generate (b : Basket)
    (h : basket_subtotal b < 1000) :
    (apply_promotions b).total_discount
      = round2 (-(promo_field_sum (generate b true))) := by
  rw [promo_field_sum_generate, neg_neg]
  have hb : ¬ (1000 ≤ basket_subtotal b) := not_le.mpr h
  simp [apply_promotions, apply_promotions_auto, hb]

/-- C4 witness: the scenario basket (subtotal 300) satisfies the threshold
hypothesis and preview and invoice agree there. -/
theorem C4_witness :
    basket_subtotal scenarioBasket < 1000
    ∧ (apply_promotions scenarioBasket).total_discount
        = round2 (-(promo_field_sum (generate scenarioBasket true))) :=
  ⟨by norm_num [basket_subtotal, scenarioBasket],
    C4_preview_matches_generate scenarioBasket
      (by norm_num [basket_subtotal, scenarioBasket])⟩

/-! ### C6 -/

/-- C6: on the §8 scenario basket (academic customer, one reagent line,
quantity 3 at unit price 100, domestic) the subtotal is 300, the academic
rule is eligible while the bulk rule is not, invoice generation emits
exactly one promotion_discount dynamic field, and the discount equals 10%
of the subtotal, i.e. 30.00. -/
theorem C6_academic_scenario :
    (scenarioBasket.customer.segment = CustomerSegment.academic
      ∧ 100 ≤ basket_subtotal scenarioBasket)
    ∧ ¬ (1000 ≤ basket_subtotal scenarioBasket)
    ∧ basket_subtotal scenarioBasket = 300
    ∧ ((generate scenarioBasket true).dynamic_fields.filter
        (fun f => f.field_name = "promotion_discount")).length = 1
    ∧ promo_field_sum (generate scenarioBasket true) = -30 := by
  norm_num +decide [generate, scenarioBasket, acadCustomer, reagentProduct,
    basket_subtotal, generate_dynamic_fields, apply_promotions_auto, service_fees,
    promo_field_sum, make_line_item, calculate_shipping, List.filter]

/-! ### C7 -/

/-- Rounding to 2 decimals fixes every rational with denominator
dividing 100. -/
theorem round2_eq_self {q : ℚ} (n : ℤ) (hn : q * 100 = (n : ℚ)) : round2 q = q := by
  unfold round2 roundTE
  rw [hn, Int.floor_intCast]
  rw [if_pos (by norm_num : (n : ℚ) - n < 1/2)]
  rw [← hn]
  ring

/-- When the upper-cased countries agree, `estimate_cost` uses the domestic
rate table: customs fee and tariff estimate are zero and the base is 8.50. -/
theorem estimate_cost_domestic (b : Basket)
    (h : pyUpper b.destination_country = pyUpper b.customer.country) :
    (estimate_cost b).breakdown.customs_fee = 0
    ∧ (estimate_cost b).breakdown.tariff_estimate = 0
    ∧ (estimate_cost b).breakdown.base_shipping = 85/10 := by
  have hne : ¬ (pyUpper b.destination_country ≠ pyUpper b.customer.country) :=
    not_not_intro h
  refine ⟨?_, ?_, ?_⟩
  · unfold estimate_cost
    dsimp only
    rw [if_neg hne]
    exact round2_eq_self 0 (by norm_num)
  · unfold estimate_cost
    dsimp only
    rw [if_neg hne]
    exact round2_eq_self 0 (by norm_num)
  · unfold estimate_cost zone_base
    dsimp only
    rw [if_neg (by simpa using hne)]
    exact round2_eq_self 850 (by norm_num)

/-- When the upper-cased countries differ, `estimate_cost` uses the
international rate table: base 25, customs fee 15, tariff estimate 5% of
the basket value (rounded). -/
theorem estimate_cost_international (b : Basket)
    (h : pyUpper b.destination_country ≠ pyUpper b.customer.country) :
    (estimate_cost b).breakdown.base_shipping = 25
    ∧ (estimate_cost b).breakdown.customs_fee = 15
    ∧ (estimate_cost b).breakdown.tariff_estimate = round2 (basket_value b * (5/100)) := by
  refine ⟨?_, ?_, ?_⟩
  · unfold estimate_cost zone_base
    dsimp only
    rw [if_pos (by simpa using h)]
    exact round2_eq_self 2500 (by norm_num)
  · unfold estimate_cost
    dsimp only
    rw [if_pos h]
    exact round2_eq_self 1500 (by norm_num)
  · unfold estimate_cost
    dsimp only
    rw [if_pos h]

/-- C7 counterexample: on a valid basket whose destination string "us"
differs from the customer country "US" only in letter case — a change of
destination_country from equal to different — the estimator stays on the
domestic table and customs fee and tariff estimate remain zero, against the
claim's literal reading. -/
theorem C7_counterexample :
    caseBasket.destination_country ≠ caseBasket.customer.country
    ∧ (estimate_cost caseBasket).breakdown.customs_fee = 0
    ∧ (estimate_cost caseBasket).breakdown.tariff_estimate = 0
    ∧ (estimate_cost caseBasket).breakdown.base_shipping = 85/10 :=
  ⟨by decide, estimate_cost_domestic caseBasket (by decide)⟩

/-- C7 (amended): starting from a basket shipped to the customer's own
country (customs fee and tariff estimate zero, domestic base 8.50),
changing only destination_country to one that differs from the customer
country after upper-casing — and provided the basket's base-price value is
at least 1 so that the rounded 5% tariff estimate cannot vanish — switches
`estimate_cost` to the international rate table (base 25) and makes the
customs fee (15) and the tariff estimate (5% of Σ base_price·quantity)
non-zero. -/
theorem C7_zone_boundary (b : Basket) (d : String)
    (h0 : b.destination_country = b.customer.country)
    (h1 : pyUpper d ≠ pyUpper b.customer.country)
    (h2 : 1 ≤ basket_value b) :
    (estimate_cost b).breakdown.customs_fee = 0
    ∧ (estimate_cost b).breakdown.tariff_estimate = 0
    ∧ (estimate_cost b).breakdown.base_shipping = 85/10
    ∧ (estimate_cost {b with destination_country := d}).breakdown.base_shipping = 25
    ∧ (estimate_cost {b with destination_country := d}).breakdown.customs_fee = 15
    ∧ 0 < (estimate_cost {b with destination_country := d}).breakdown.tariff_estimate := by
  obtain ⟨d1, d2, d3⟩ := estimate_cost_domestic b (by rw [h0])
  obtain ⟨i1, i2, i3⟩ := estimate_cost_international ({b with destination_country := d}) h1
  refine ⟨d1, d2, d3, i1, i2, ?_⟩
  rw [i3]
  have hv : basket_value ({b with destination_country := d} : Basket) = basket_value b := rfl
  rw [hv]
  exact round2_pos_of_ge (by linarith)

/-- C7 witness: the bulk basket shipped US→US, redirected to "DE". -/
theorem C7_witness :
    bulkBasket.destination_country = bulkBasket.customer.country
    ∧ pyUpper "DE" ≠ pyUpper bulkBasket.customer.country
    ∧ 1 ≤ basket_value bulkBasket
    ∧ ((estimate_cost bulkBasket).breakdown.customs_fee = 0
      ∧ (estimate_cost bulkBasket).breakdown.tariff_estimate = 0
      ∧ (estimate_cost bulkBasket).breakdown.base_shipping = 85/10
      ∧ (estimate_cost {bulkBasket with destination_country := "DE"}).breakdown.base_shipping = 25
      ∧ (estimate_cost {bulkBasket with destination_country := "DE"}).breakdown.customs_fee = 15
      ∧ 0 < (estimate_cost {bulkBasket with destination_country := "DE"}).breakdown.tariff_estimate) :=
  ⟨rfl, by decide, by norm_num [basket_value, bulkBasket, reagentProduct],
    C7_zone_boundary bulkBasket "DE" rfl (by decide)
      (by norm_num [basket_value, bulkBasket, reagentProduct])⟩

/-! ### C8 -/

/-- C8: the tariff-preview operation returns a total tariff of zero, no
items, and the explanatory domestic note whenever the origin country equals
the basket's destination_country. -/
theorem C8_domestic_tariff_zero (b : Basket) (origin_country : String)
    (h : origin_country = b.destination_country) :
    (calculate_tariffs b origin_country).total_tariffs = 0
    ∧ (calculate_tariffs b origin_country).notes = "Domestic shipment - no tariffs"
    ∧ (calculate_tariffs b origin_country).items = [] := by
  subst h
  unfold calculate_tariffs
  rw [if_pos rfl]
  exact ⟨rfl, rfl, rfl⟩

/-- C8 witness: previewing tariffs for the domestic bulk basket with
origin "US" equal to its destination. -/
theorem C8_witness :
    "US" = bulkBasket.destination_country
    ∧ ((calculate_tariffs bulkBasket "US").total_tariffs = 0
      ∧ (calculate_tariffs bulkBasket "US").notes = "Domestic shipment - no tariffs"
      ∧ (calculate_tariffs bulkBasket "US").items = []) :=
  ⟨rfl, C8_domestic_tariff_zero bulkBasket "US" rfl⟩

/-! ### C9 -/

/-- Erasing HS codes changes none of the aggregate outputs of `generate`
(only the per-line informational tariff_rate reads the HS code). -/
theorem generate_erase_hs (b : Basket) (inc : Bool) :
    (generate (erase_hs_basket b) inc).subtotal = (generate b inc).subtotal
    ∧ (generate (erase_hs_basket b) inc).tax_total = (generate b inc).tax_total
    ∧ (generate (erase_hs_basket b) inc).shipping_cost = (generate b inc).shipping_cost
    ∧ (generate (erase_hs_basket b) inc).dynamic_fields = (generate b inc).dynamic_fields
    ∧ (generate (erase_hs_basket b) inc).total = (generate b inc).total := by
  have hsub : basket_subtotal (erase_hs_basket b) = basket_subtotal b := by
    unfold basket_subtotal erase_hs_basket
    simp only [List.map_map]
    exact congrArg List.sum (List.map_congr_left (fun item _ => rfl))
  have hship : calculate_shipping (erase_hs_basket b) = calculate_shipping b := by
    unfold calculate_shipping erase_hs_basket
    simp only [List.map_map]
    have hq : List.map ((fun item : BasketItem => item.quantity) ∘ fun item : BasketItem =>
          { product := erase_hs_product item.product, quantity := item.quantity,
            unit_price := item.unit_price }) b.items
        = List.map (fun item : BasketItem => item.quantity) b.items :=
      List.map_congr_left (fun item _ => rfl)
    rw [hq]
  have htax : (List.map (fun item => item.line_total * item.tax_rate)
        ((erase_hs_basket b).items.map (make_line_item (erase_hs_basket b)))).sum
      = (List.map (fun item => item.line_total * item.tax_rate)
          (b.items.map (make_line_item b))).sum := by
    unfold erase_hs_basket
    simp only [List.map_map]
    exact congrArg List.sum (List.map_congr_left (fun item _ => rfl))
  have hany : ((erase_hs_basket b).items.any (fun item =>
        item.product.category = ProductCategory.instruments ∨
        item.product.category = ProductCategory.lab_equipment))
      = (b.items.any (fun item =>
        item.product.category = ProductCategory.instruments ∨
        item.product.category = ProductCategory.lab_equipment)) := by
    unfold erase_hs_basket
    simp only [List.any_map]
    exact congrArg b.items.any (funext (fun item => rfl))
  have hdyn : ∀ st : ℚ, generate_dynamic_fields (erase_hs_basket b) st
      = generate_dynamic_fields b st := by
    intro st
    unfold generate_dynamic_fields
    rw [hany]
    rfl
  have hpromo : ∀ st : ℚ, apply_promotions_auto (erase_hs_basket b) st
      = apply_promotions_auto b st := fun _ => rfl
  unfold generate
  dsimp only
  rw [hsub, hship, htax, hdyn, hpromo]
  exact ⟨rfl, rfl, rfl, rfl, rfl⟩

/-- C9: for any two baskets differing only in their products' hs_code
values (equal after HS-code erasure), `generate` produces the same
subtotal, tax_total, shipping_cost, dynamic_fields, and total — the
per-line tariff_rate never contributes any amount to the invoice. -/
theorem C9_hs_code_inert (b₁ b₂ : Basket) (inc : Bool)
    (h : erase_hs_basket b₁ = erase_hs_basket b₂) :
    (generate b₁ inc).subtotal = (generate b₂ inc).subtotal
    ∧ (generate b₁ inc).tax_total = (generate b₂ inc).tax_total
    ∧ (generate b₁ inc).shipping_cost = (generate b₂ inc).shipping_cost
    ∧ (generate b₁ inc).dynamic_fields = (generate b₂ inc).dynamic_fields
    ∧ (generate b₁ inc).total = (generate b₂ inc).total := by
  have e₁ := generate_erase_hs b₁ inc
  rw [h] at e₁
  have e₂ := generate_erase_hs b₂ inc
  exact ⟨e₁.1.symm.trans e₂.1,
    e₁.2.1.symm.trans e₂.2.1,
    e₁.2.2.1.symm.trans e₂.2.2.1,
    e₁.2.2.2.1.symm.trans e₂.2.2.2.1,
    e₁.2.2.2.2.symm.trans e₂.2.2.2.2⟩

/-- C9 witness: two international baskets, one with HS code 3822 and one
without, agree on every aggregate invoice output. -/
theorem C9_witness :
    erase_hs_basket hsBasketA = erase_hs_basket hsBasketB
    ∧ ((generate hsBasketA true).subtotal = (generate hsBasketB true).subtotal
      ∧ (generate hsBasketA true).tax_total = (generate hsBasketB true).tax_total
      ∧ (generate hsBasketA true).shipping_cost = (generate hsBasketB true).shipping_cost
      ∧ (generate hsBasketA true).dynamic_fields = (generate hsBasketB true).dynamic_fields
      ∧ (generate hsBasketA true).total = (generate hsBasketB true).total) :=
  ⟨rfl, C9_hs_code_inert hsBasketA hsBasketB true rfl⟩

/-! ### C10 -/

/-- Under case-insensitively equal countries the international_processing
field is never generated. -/
theorem intl_field_absent (b : Basket) (st : ℚ)
    (h : pyUpper b.customer.country = pyUpper b.destination_country)
    (f : DynamicField) (hf : f ∈ generate_dynamic_fields b st) :
    ¬ f.field_name = "international_processing" := by
  unfold generate_dynamic_fields at hf
  simp only [List.mem_append, List.mem_singleton] at hf
  rcases hf with ((h1 | h1) | h1) | h1
  · subst h1; simp
  · revert h1; split_ifs <;> intro h1 <;> simp_all +decide
  · rw [if_neg (not_not_intro h)] at h1
    simp at h1
  · subst h1; simp

/-- C10: every country comparison deciding international treatment
upper-cases both sides first, so countries differing only in letter case
are treated as the same (domestic) country: the shipping breakdown uses
the domestic table with zero customs fee and tariff estimate, every
generated line item carries no tariff_rate, no international_processing
dynamic field is emitted, and the tariff preview reports zero for any
origin that matches the destination case-insensitively. -/
theorem C10_case_insensitive (b : Basket)
    (h : pyUpper b.customer.country = pyUpper b.destination_country) :
    (estimate_cost b).breakdown.customs_fee = 0
    ∧ (estimate_cost b).breakdown.tariff_estimate = 0
    ∧ (estimate_cost b).breakdown.base_shipping = 85/10
    ∧ (∀ inc : Bool, ∀ li ∈ (generate b inc).line_items, li.tariff_rate = none)
    ∧ (∀ inc : Bool, ∀ f ∈ (generate b inc).dynamic_fields,
        ¬ f.field_name = "international_processing")
    ∧ (∀ origin : String, pyUpper origin = pyUpper b.destination_country →
        (calculate_tariffs b origin).total_tariffs = 0) := by
  obtain ⟨d1, d2, d3⟩ := estimate_cost_domestic b h.symm
  refine ⟨d1, d2, d3, ?_, ?_, ?_⟩
  · intro inc li hli
    unfold generate at hli
    dsimp only at hli
    rcases List.mem_map.mp hli with ⟨item, _, rfl⟩
    simp [make_line_item, not_ne_iff.mpr h]
  · intro inc f hf
    unfold generate at hf
    dsimp only at hf
    cases inc with
    | false => exact intl_field_absent b _ h f (by simpa using hf)
    | true =>
      rw [if_pos (rfl : (true : Bool) = true)] at hf
      by_cases hpos : 0 < apply_promotions_auto b (basket_subtotal b)
      · rw [if_pos hpos, List.mem_append] at hf
        rcases hf with hf | hf
        · exact intl_field_absent b _ h f hf
        · rcases List.mem_singleton.mp hf with rfl
          simp
      · rw [if_neg hpos] at hf
        exact intl_field_absent b _ h f hf
  · intro origin horig
    unfold calculate_tariffs
    rw [if_pos horig.symm]

/-- C10 witness: customer country "US", destination "us" — unequal strings,
case-insensitively equal — are treated as domestic by every operation. -/
theorem C10_witness :
    pyUpper caseBasket.customer.country = pyUpper caseBasket.destination_country
    ∧ ((estimate_cost caseBasket).breakdown.customs_fee = 0
      ∧ (estimate_cost caseBasket).breakdown.tariff_estimate = 0
      ∧ (estimate_cost caseBasket).breakdown.base_shipping = 85/10
      ∧ (∀ inc : Bool, ∀ li ∈ (generate caseBasket inc).line_items, li.tariff_rate = none)
      ∧ (∀ inc : Bool, ∀ f ∈ (generate caseBasket inc).dynamic_fields,
          ¬ f.field_name = "international_processing")
      ∧ (∀ origin : String, pyUpper origin = pyUpper caseBasket.destination_country →
          (calculate_tariffs caseBasket origin).total_tariffs = 0)) :=
  ⟨by decide, C10_case_insensitive caseBasket (by decide)⟩
